import Mathlib

/-!
Verification of the session orchestrator in `diamond_mariokart/play.py`.

The file embeds the orchestrator shallowly: the pure computations
(context-length resolution, device selection, window sizing, path
derivation) become Lean functions, and the effectful body of
`prepare_play_mode` / `main` becomes a function that returns the ordered
list of its externally visible effects (remote download, YAML loads,
device placement, checkpoint load, compilation) together with the value
it would return, `none` standing for an aborting assertion failure.
-/

namespace Play

/-- The value of `args.model` as produced by `argparse` with `type=Path`:
either the flag was absent (`None` in Python) or it is a `pathlib.Path`. -/
inductive ModelArg where
  | noneArg : ModelArg
  | pathArg (p : String) : ModelArg
deriving DecidableEq

/-- `pathlib.Path(s)` normalisation as far as this program exercises it:
the empty string denotes the current directory, `Path("") == Path(".")`. -/
def pathOfString (s : String) : String :=
  if s = "" then "." else s

/-- `argparse` conversion for `--model` (`type=Path`): a missing flag
yields `None`, a supplied string is converted with `pathlib.Path`. -/
def parseModelArg : Option String → ModelArg
  | none => ModelArg.noneArg
  | some s => ModelArg.pathArg (pathOfString s)

/-- Python `args.model == ""` where `args.model` is `None` or a `Path`:
`None == ""` is `False`, and `Path.__eq__` with a `str` returns
`NotImplemented`, so the comparison is `False` in every case. -/
def pyEqEmptyStr : ModelArg → Bool
  | ModelArg.noneArg => false
  | ModelArg.pathArg _ => false

/-- Python `args.model == None`: true exactly when the flag was absent. -/
def pyEqNone : ModelArg → Bool
  | ModelArg.noneArg => true
  | ModelArg.pathArg _ => false

/-- The branch condition of line 49,
`args.model == "" or args.model == None`. -/
def usesRemote (m : ModelArg) : Bool :=
  pyEqEmptyStr m || pyEqNone m

/-- `pathlib` `/` join, on the string rendering of paths (model names are
treated as plain relative path segments, as the program uses them). -/
def pathJoin (a b : String) : String :=
  a ++ "/" ++ b

/-- The four paths lines 54-59 derive from the bundle root `path_hf`:
checkpoint file, spawn directory, agent config, environment config. -/
structure BundlePaths where
  ckpt : String
  spawn : String
  agent_cfg : String
  env_cfg : String
deriving DecidableEq

/-- Path derivation of lines 54-59, as a function of the bundle root and
the model name. -/
def derive_paths (path_hf model_name : String) : BundlePaths :=
  { ckpt := pathJoin path_hf (model_name ++ "/model/" ++ model_name ++ ".pt")
    spawn := pathJoin path_hf (model_name ++ "/spawn")
    agent_cfg := pathJoin path_hf (model_name ++ "/config/agent/" ++ model_name ++ ".yaml")
    env_cfg := pathJoin path_hf (model_name ++ "/config/env/" ++ model_name ++ ".yaml") }

/-- The bundle root (line 50-52): the local snapshot directory returned by
`snapshot_download` on the remote branch, `args.model` otherwise. The
`noneArg` arm of the second branch is unreachable, since
`usesRemote ModelArg.noneArg = true`; it returns the snapshot root so the
function stays total. -/
def path_hf_of (m : ModelArg) (snapshot_root : String) : String :=
  if usesRemote m then snapshot_root
  else
    match m with
    | ModelArg.pathArg p => p
    | ModelArg.noneArg => snapshot_root

/-- `torch.device` kinds the selector can yield. -/
inductive DeviceType where
  | cuda : DeviceType
  | mps : DeviceType
  | cpu : DeviceType
deriving DecidableEq

/-- Python `device.type` of the selected device. -/
def deviceTypeStr : DeviceType → String
  | DeviceType.cuda => "cuda"
  | DeviceType.mps => "mps"
  | DeviceType.cpu => "cpu"

/-- Device probe of lines 61-66: `cuda:0` when CUDA is available, else
`mps` when MPS is available, else `cpu`. -/
def selectDevice (cuda_available mps_available : Bool) : DeviceType :=
  if cuda_available then DeviceType.cuda
  else if mps_available then DeviceType.mps
  else DeviceType.cpu

/-- Context-length resolution of lines 76-78: `sl` starts at the
denoiser's `num_steps_conditioning` and, when `agent.upsampler` is not
`None`, becomes the max with the upsampler's `num_steps_conditioning`. -/
def resolveContextLength (denoiser_sl : Nat) (upsampler_sl : Option Nat) : Nat :=
  match upsampler_sl with
  | some b => max denoiser_sl b
  | none => denoiser_sl

/-- `cfg.env.train.size`: a single integer (square) or an explicit pair,
whose components line 109 unpacks as `w, h`. -/
inductive TrainSize where
  | square (n : Int) : TrainSize
  | pair (fst snd : Int) : TrainSize
deriving DecidableEq

/-- Line 109: `w, h = (size,) * 2 if isinstance(size, int) else size`. -/
def windowWH : TrainSize → Int × Int
  | TrainSize.square n => (n, n)
  | TrainSize.pair a b => (a, b)

/-- Lines 109-110: the `(size_h, size_w)` pair handed to `Game`,
`size_h, size_w = h * args.size_multiplier, w * args.size_multiplier`. -/
def windowSize (size : TrainSize) (mult : Int) : Int × Int :=
  ((windowWH size).2 * mult, (windowWH size).1 * mult)

/-- Command-line options (`parse_args`, lines 20-36). -/
structure Args where
  record : Bool
  store_denoising_trajectory : Bool
  store_original_obs : Bool
  mouse_multiplier : Int
  size_multiplier : Int
  compileFlag : Bool
  colab : Bool
  fps : Int
  no_header : Bool
  model : ModelArg
deriving DecidableEq

/-- Result of `check_args` (lines 39-42): whether the warning was printed
and the returned value. -/
structure CheckResult where
  warned : Bool
  ok : Bool
deriving DecidableEq

/-- `check_args`: print a warning when recording is off but a retention
flag is set; unconditionally `return True`. -/
def check_args (args : Args) : CheckResult :=
  { warned := !args.record && (args.store_denoising_trajectory || args.store_original_obs)
    ok := true }

/-- Contents of the `config/env/<name>.yaml` loaded at line 59, as far as
the orchestrator reads them. -/
structure EnvCfg where
  train_id : String
  num_actions : Nat
deriving DecidableEq

/-- Contents of the `config/agent/<name>.yaml` loaded at line 58, as far
as the orchestrator reads them; `upsampler = some b` when an upsampler is
configured with conditioning length `b` (then `agent.upsampler` is not
`None`), `none` when absent. -/
structure AgentCfg where
  denoiser_num_steps_conditioning : Nat
  upsampler : Option Nat
deriving DecidableEq

/-- The ambient torch / filesystem facts `prepare_play_mode` consults:
device availability, the directory `snapshot_download` would return, and
the contents of the two YAML documents of the chosen bundle. -/
structure TorchEnv where
  cuda_available : Bool
  mps_available : Bool
  snapshot_root : String
  agent_cfg : AgentCfg
  env_cfg : EnvCfg
deriving DecidableEq

/-- Externally visible effects of `prepare_play_mode`, in program order. -/
inductive Effect where
  | snapshotDownload (repo_id : String) (allow_pattern : String) : Effect
  | loadYaml (path : String) : Effect
  | assertFailed : Effect
  | toDevice (d : DeviceType) : Effect
  | loadCkpt (path : String) : Effect
  | compileModels : Effect
deriving DecidableEq

/-- The `WorldModelEnv` constructed at line 80, as the orchestrator
parameterises it, plus whether its two per-step call paths were replaced
by compiled versions (lines 82-85). -/
structure WorldModelEnvModel where
  has_upsampler : Bool
  spawn_dir : String
  num_envs : Nat
  seq_length : Nat
  return_denoising_trajectory : Bool
  predict_compiled : Bool
  upsample_compiled : Bool
deriving DecidableEq

/-- The `PlayEnv` constructed at lines 87-93. -/
structure PlayEnvModel where
  wm_env : WorldModelEnvModel
  record : Bool
  store_denoising_trajectory : Bool
  store_original_obs : Bool
deriving DecidableEq

/-- `prepare_play_mode` (lines 45-95): returns the ordered effect trace
and the constructed `PlayEnv`, `none` when the line 68 assertion aborts.
The assertion compares `cfg.env.train.id` with `f"{model_name}"`, which
for a string equals `model_name` itself. -/
def prepare_play_mode (te : TorchEnv) (model_name : String) (args : Args) :
    List Effect × Option PlayEnvModel :=
  let dl : List Effect :=
    if usesRemote args.model then
      [Effect.snapshotDownload "DereWah/diamond-mariokart64" (model_name ++ "/*")]
    else []
  let path_hf := path_hf_of args.model te.snapshot_root
  let paths := derive_paths path_hf model_name
  let loads : List Effect := [Effect.loadYaml paths.agent_cfg, Effect.loadYaml paths.env_cfg]
  let device := selectDevice te.cuda_available te.mps_available
  if te.env_cfg.train_id = model_name then
    let sl := resolveContextLength te.agent_cfg.denoiser_num_steps_conditioning
      te.agent_cfg.upsampler
    let compiled := deviceTypeStr device = "cuda" && args.compileFlag
    let wm_env : WorldModelEnvModel :=
      { has_upsampler := te.agent_cfg.upsampler.isSome
        spawn_dir := paths.spawn
        num_envs := 1
        seq_length := sl
        return_denoising_trajectory := true
        predict_compiled := compiled
        upsample_compiled := compiled }
    let play_env : PlayEnvModel :=
      { wm_env := wm_env
        record := args.record
        store_denoising_trajectory := args.store_denoising_trajectory
        store_original_obs := args.store_original_obs }
    (dl ++ loads ++ [Effect.toDevice device, Effect.loadCkpt paths.ckpt]
       ++ (if compiled then [Effect.compileModels] else []),
     some play_env)
  else
    (dl ++ loads ++ [Effect.assertFailed], none)

/-- The `Game` constructed at line 113, as `main` parameterises it. -/
structure GameModel where
  env : PlayEnvModel
  size : Int × Int
  mouse_multiplier : Int
  fps : Int
  verbose : Bool
  use_colab : Bool
deriving DecidableEq

/-- How `main` (lines 98-114) terminates: the early return when
`check_args` fails, an abort inside `prepare_play_mode`, or the game
started with given parameters. -/
inductive MainOutcome where
  | argCheckAbort : MainOutcome
  | prepAbort : MainOutcome
  | started (g : GameModel) : MainOutcome
deriving DecidableEq

/-- `main` (lines 98-114): run `check_args`, return early when it fails,
compute the window size from the base configuration, run
`prepare_play_mode`, and start the game. -/
def main (te : TorchEnv) (train_size : TrainSize) (model_name : String) (args : Args) :
    MainOutcome :=
  if !(check_args args).ok then MainOutcome.argCheckAbort
  else
    let size_hw := windowSize train_size args.size_multiplier
    match (prepare_play_mode te model_name args).2 with
    | none => MainOutcome.prepAbort
    | some env =>
      MainOutcome.started
        { env := env
          size := size_hw
          mouse_multiplier := args.mouse_multiplier
          fps := args.fps
          verbose := !args.no_header
          use_colab := args.colab }

/-- A concrete argument namespace used by witnesses. -/
def args0 : Args :=
  { record := false
    store_denoising_trajectory := true
    store_original_obs := false
    mouse_multiplier := 10
    size_multiplier := 2
    compileFlag := true
    colab := false
    fps := 15
    no_header := false
    model := ModelArg.pathArg "/models" }

/-- A concrete torch environment used by witnesses: no CUDA, MPS present,
bundle declaring training id `track-a`. -/
def te0 : TorchEnv :=
  { cuda_available := false
    mps_available := true
    snapshot_root := "/snap"
    agent_cfg := { denoiser_num_steps_conditioning := 4, upsampler := some 6 }
    env_cfg := { train_id := "track-a", num_actions := 12 } }

/-- A concrete argument namespace with no `--model` override. -/
def args1 : Args :=
  { record := true
    store_denoising_trajectory := false
    store_original_obs := false
    mouse_multiplier := 10
    size_multiplier := 2
    compileFlag := false
    colab := false
    fps := 15
    no_header := false
    model := ModelArg.noneArg }

/-- The concrete game `main te0 (TrainSize.square 64) "track-a" args0`
starts. -/
def mainWitnessGame : GameModel :=
  { env :=
      { wm_env :=
          { has_upsampler := true
            spawn_dir := "/models/track-a/spawn"
            num_envs := 1
            seq_length := 6
            return_denoising_trajectory := true
            predict_compiled := false
            upsample_compiled := false }
        record := false
        store_denoising_trajectory := true
        store_original_obs := false }
    size := (128, 128)
    mouse_multiplier := 10
    fps := 15
    verbose := true
    use_colab := false }

/-- A concrete torch environment whose bundle declares a training id
different from the requested model name. -/
def teBad : TorchEnv :=
  { cuda_available := false
    mps_available := true
    snapshot_root := "/snap"
    agent_cfg := { denoiser_num_steps_conditioning := 4, upsampler := some 6 }
    env_cfg := { train_id := "track-b", num_actions := 12 } }

theorem string_append_assoc (a b c : String) : a ++ b ++ c = a ++ (b ++ c) := by
  apply String.ext
  simp [String.data_append, List.append_assoc]

theorem mem_ite_nil_iff {α : Type} (x : α) (c : Prop) [Decidable c] (l : List α) :
    (x ∈ if c then l else []) ↔ c ∧ x ∈ l := by
  split <;> simp_all

theorem prepare_play_mode_success (te : TorchEnv) (model_name : String) (args : Args)
    (hid : te.env_cfg.train_id = model_name) :
    (prepare_play_mode te model_name args).2 = some
      { wm_env :=
          { has_upsampler := te.agent_cfg.upsampler.isSome
            spawn_dir := (derive_paths (path_hf_of args.model te.snapshot_root) model_name).spawn
            num_envs := 1
            seq_length := resolveContextLength te.agent_cfg.denoiser_num_steps_conditioning
              te.agent_cfg.upsampler
            return_denoising_trajectory := true
            predict_compiled :=
              deviceTypeStr (selectDevice te.cuda_available te.mps_available) = "cuda"
                && args.compileFlag
            upsample_compiled :=
              deviceTypeStr (selectDevice te.cuda_available te.mps_available) = "cuda"
                && args.compileFlag }
        record := args.record
        store_denoising_trajectory := args.store_denoising_trajectory
        store_original_obs := args.store_original_obs } := by
  simp [prepare_play_mode, hid]

theorem main_never_early_return (te : TorchEnv) (ts : TrainSize) (mn : String) (args : Args) :
    main te ts mn args ≠ MainOutcome.argCheckAbort := by
  unfold main
  simp only [check_args, Bool.not_true, Bool.false_eq_true, if_false]
  rcases (prepare_play_mode te mn args).2 with _ | p <;> simp

/-- Claim C1: if the loaded environment configuration's declared training
identifier differs from the model name entered by the user,
`prepare_play_mode` raises a fatal configuration error (the line 68
assertion fails and no `PlayEnv` is produced), and at that point no model
has been placed on the selected device (no `toDevice` effect occurs). -/
theorem C1_mismatch_aborts_before_device_placement (te : TorchEnv) (model_name : String)
    (args : Args) (h : te.env_cfg.train_id ≠ model_name) :
    (prepare_play_mode te model_name args).2 = none ∧
    Effect.assertFailed ∈ (prepare_play_mode te model_name args).1 ∧
    ∀ d : DeviceType, Effect.toDevice d ∉ (prepare_play_mode te model_name args).1 := by
  by_cases hu : usesRemote args.model <;>
    simp [prepare_play_mode, h, hu]

/-- Witness for C1 at a concrete mismatched bundle. -/
theorem C1_witness :
    (prepare_play_mode teBad "track-a" args0).2 = none ∧
    Effect.assertFailed ∈ (prepare_play_mode teBad "track-a" args0).1 ∧
    ∀ d : DeviceType, Effect.toDevice d ∉ (prepare_play_mode teBad "track-a" args0).1 :=
  C1_mismatch_aborts_before_device_placement teBad "track-a" args0 (by decide)

/-- Claim C2: the resolved context length `sl` passed to the world
environment is `resolveContextLength` of the two declared conditioning
lengths, which equals `max a b` when an upsampler is present (hence `a`
when `a = b`) and `a` when no upsampler is present. -/
theorem C2_context_length (te : TorchEnv) (model_name : String) (args : Args) (a b : Nat)
    (hid : te.env_cfg.train_id = model_name) :
    (te.agent_cfg = { denoiser_num_steps_conditioning := a, upsampler := some b } →
      ∃ p, (prepare_play_mode te model_name args).2 = some p ∧
        p.wm_env.seq_length = max a b) ∧
    (te.agent_cfg = { denoiser_num_steps_conditioning := a, upsampler := none } →
      ∃ p, (prepare_play_mode te model_name args).2 = some p ∧
        p.wm_env.seq_length = a) ∧
    (a = b → resolveContextLength a (some b) = a) := by
  refine ⟨?_, ?_, ?_⟩
  · intro h
    exact ⟨_, prepare_play_mode_success te model_name args hid,
      by simp [h, resolveContextLength]⟩
  · intro h
    exact ⟨_, prepare_play_mode_success te model_name args hid,
      by simp [h, resolveContextLength]⟩
  · intro h
    simp [resolveContextLength, h]

/-- Witness for C2 at a concrete environment with conditioning lengths 4
and 6. -/
theorem C2_witness :
    (te0.agent_cfg = { denoiser_num_steps_conditioning := 4, upsampler := some 6 } →
      ∃ p, (prepare_play_mode te0 "track-a" args0).2 = some p ∧
        p.wm_env.seq_length = max 4 6) ∧
    (te0.agent_cfg = { denoiser_num_steps_conditioning := 4, upsampler := none } →
      ∃ p, (prepare_play_mode te0 "track-a" args0).2 = some p ∧
        p.wm_env.seq_length = 4) ∧
    (4 = 6 → resolveContextLength 4 (some 6) = 4) :=
  C2_context_length te0 "track-a" args0 4 6 rfl

/-- Claim C3 counterexample: with base size `(64, 128)` and multiplier 2,
the `(size_h, size_w)` pair passed to the game is `(256, 128)`, not the
`(128, 256)` the claim states; line 109 unpacks the pair as `w, h`. -/
theorem C3_counterexample :
    windowSize (TrainSize.pair 64 128) 2 = (256, 128) ∧
    windowSize (TrainSize.pair 64 128) 2 ≠ (128, 256) := by
  exact ⟨rfl, by decide⟩

/-- Claim C3 (amended): the window size multiplies the configured base
size by the multiplier; a single integer means a square, and an explicit
pair is unpacked as `(width, height)`, so base 64 with multiplier 3
yields `(192, 192)` and base `(64, 128)` with multiplier 2 yields
`(256, 128)` as the `(size_h, size_w)` passed to the game. -/
theorem C3_window_size (n a b m : Int) (te : TorchEnv) (model_name : String)
    (args : Args) (ts : TrainSize) (g : GameModel)
    (hg : main te ts model_name args = MainOutcome.started g) :
    windowSize (TrainSize.square 64) 3 = (192, 192) ∧
    windowSize (TrainSize.pair 64 128) 2 = (256, 128) ∧
    windowSize (TrainSize.square n) m = (n * m, n * m) ∧
    windowSize (TrainSize.pair a b) m = (b * m, a * m) ∧
    g.size = windowSize ts args.size_multiplier := by
  refine ⟨rfl, rfl, rfl, rfl, ?_⟩
  unfold main at hg
  simp only [check_args, Bool.not_true, Bool.false_eq_true, if_false] at hg
  rcases hp : (prepare_play_mode te model_name args).2 with _ | p <;> rw [hp] at hg
  · simp at hg
  · simp only [MainOutcome.started.injEq] at hg
    rw [← hg]

/-- Witness for C3's amended theorem at a concrete run reaching game
start. -/
theorem C3_window_size_witness :
    windowSize (TrainSize.square 64) 3 = (192, 192) ∧
    windowSize (TrainSize.pair 64 128) 2 = (256, 128) ∧
    windowSize (TrainSize.square 5) 7 = (5 * 7, 5 * 7) ∧
    windowSize (TrainSize.pair 2 3) 7 = (3 * 7, 2 * 7) ∧
    (mainWitnessGame).size = windowSize (TrainSize.square 64) args0.size_multiplier :=
  C3_window_size 5 2 3 7 te0 "track-a" args0 (TrainSize.square 64) mainWitnessGame
    (by decide)

/-- Claim C4: device selection probes CUDA, then MPS, then CPU, returns
the first available, always returns one of the three, and returns CPU
exactly when neither CUDA nor MPS is available. -/
theorem C4_device_selection (c m : Bool) :
    (selectDevice c m = DeviceType.cuda ∨ selectDevice c m = DeviceType.mps ∨
      selectDevice c m = DeviceType.cpu) ∧
    (c = true → selectDevice c m = DeviceType.cuda) ∧
    (c = false → m = true → selectDevice c m = DeviceType.mps) ∧
    (selectDevice c m = DeviceType.cpu ↔ c = false ∧ m = false) := by
  cases c <;> cases m <;> decide

/-- Witness for C4: with neither backend available the selector yields
the CPU. -/
theorem C4_witness : selectDevice false false = DeviceType.cpu :=
  (C4_device_selection false false).2.2.2.mpr ⟨rfl, rfl⟩

/-- Claim C5: with a local override directory, the loader performs no
remote download and derives the checkpoint path `<override>/m/model/m.pt`
and spawn directory `<override>/m/spawn`; without an override, the remote
download requests only the subtree `m/*`. -/
theorem C5_local_override_and_remote_pattern (te : TorchEnv) (m p : String)
    (args argsRemote : Args)
    (hp : args.model = ModelArg.pathArg p) (hn : argsRemote.model = ModelArg.noneArg) :
    (∀ repo pat, Effect.snapshotDownload repo pat ∉ (prepare_play_mode te m args).1) ∧
    path_hf_of args.model te.snapshot_root = p ∧
    (derive_paths p m).ckpt = p ++ "/" ++ m ++ "/model/" ++ m ++ ".pt" ∧
    (derive_paths p m).spawn = p ++ "/" ++ m ++ "/spawn" ∧
    Effect.snapshotDownload "DereWah/diamond-mariokart64" (m ++ "/*")
      ∈ (prepare_play_mode te m argsRemote).1 := by
  refine ⟨?_, ?_, ?_, ?_, ?_⟩
  · intro repo pat
    by_cases hid : te.env_cfg.train_id = m <;>
      simp [prepare_play_mode, hp, usesRemote, pyEqEmptyStr, pyEqNone, hid, mem_ite_nil_iff]
  · simp [path_hf_of, hp, usesRemote, pyEqEmptyStr, pyEqNone]
  · simp [derive_paths, pathJoin, string_append_assoc]
  · simp [derive_paths, pathJoin, string_append_assoc]
  · by_cases hid : te.env_cfg.train_id = m <;>
      simp [prepare_play_mode, hn, usesRemote, pyEqEmptyStr, pyEqNone, hid]

/-- Witness for C5 with override directory `/models` and model name
`track-a`. -/
theorem C5_witness :
    (∀ repo pat, Effect.snapshotDownload repo pat ∉ (prepare_play_mode te0 "track-a" args0).1) ∧
    path_hf_of args0.model te0.snapshot_root = "/models" ∧
    (derive_paths "/models" "track-a").ckpt
      = "/models" ++ "/" ++ "track-a" ++ "/model/" ++ "track-a" ++ ".pt" ∧
    (derive_paths "/models" "track-a").spawn = "/models" ++ "/" ++ "track-a" ++ "/spawn" ∧
    Effect.snapshotDownload "DereWah/diamond-mariokart64" ("track-a" ++ "/*")
      ∈ (prepare_play_mode te0 "track-a" args1).1 :=
  C5_local_override_and_remote_pattern te0 "track-a" "/models" args0 args1 rfl rfl

/-- Claim C6 counterexample: a missing `--model` takes the remote branch,
but an explicitly empty-string `--model` is converted by argparse's
`Path` type to the path `.` and does not take the remote branch, so the
two are not treated identically. -/
theorem C6_counterexample :
    usesRemote (parseModelArg none) = true ∧
    parseModelArg (some "") = ModelArg.pathArg "." ∧
    usesRemote (parseModelArg (some "")) = false := by
  decide

/-- Claim C6 (amended): a missing `--model` takes the remote-retrieval
branch, but an explicitly empty-string `--model` becomes `Path(".")`
under argparse's `Path` conversion, and since a `Path` never compares
equal to `""` or `None`, every supplied `--model` value, the empty string
included, takes the local-override branch. -/
theorem C6_empty_vs_missing_model (s : String) :
    usesRemote (parseModelArg none) = true ∧
    usesRemote (parseModelArg (some s)) = false ∧
    parseModelArg (some "") = ModelArg.pathArg "." := by
  refine ⟨rfl, ?_, by decide⟩
  simp [parseModelArg, usesRemote, pyEqEmptyStr, pyEqNone]

/-- Claim C7: when the bundle id matches, `prepare_play_mode` succeeds for
every device and flag combination, and the per-step call paths are
replaced by compiled versions exactly when `--compile` is given and the
selected device type is CUDA. -/
theorem C7_compile_iff_cuda (te : TorchEnv) (model_name : String) (args : Args)
    (hid : te.env_cfg.train_id = model_name) :
    ∃ p, (prepare_play_mode te model_name args).2 = some p ∧
      (p.wm_env.predict_compiled = true ↔
        (args.compileFlag = true ∧
          selectDevice te.cuda_available te.mps_available = DeviceType.cuda)) ∧
      p.wm_env.upsample_compiled = p.wm_env.predict_compiled := by
  refine ⟨_, prepare_play_mode_success te model_name args hid, ?_, rfl⟩
  cases hd : selectDevice te.cuda_available te.mps_available <;>
    cases hc : args.compileFlag <;> simp [deviceTypeStr, hd, hc]

/-- Witness for C7: MPS device with `--compile` requested, compilation
skipped and initialization completed. -/
theorem C7_witness :
    ∃ p, (prepare_play_mode te0 "track-a" args0).2 = some p ∧
      (p.wm_env.predict_compiled = true ↔
        (args0.compileFlag = true ∧
          selectDevice te0.cuda_available te0.mps_available = DeviceType.cuda)) ∧
      p.wm_env.upsample_compiled = p.wm_env.predict_compiled :=
  C7_compile_iff_cuda te0 "track-a" args0 rfl

/-- Claim C8: with recording disabled and a retention flag set,
`check_args` warns yet returns `True`, so `main` does not take the early
return. -/
theorem C8_retention_warning_nonfatal (te : TorchEnv) (ts : TrainSize) (mn : String)
    (args : Args) (hrec : args.record = false)
    (hflag : args.store_denoising_trajectory = true ∨ args.store_original_obs = true) :
    (check_args args).warned = true ∧ (check_args args).ok = true ∧
    main te ts mn args ≠ MainOutcome.argCheckAbort := by
  refine ⟨?_, rfl, main_never_early_return te ts mn args⟩
  rcases hflag with h | h <;> simp [check_args, hrec, h]

/-- Witness for C8: recording off, denoising retention on. -/
theorem C8_witness :
    (check_args args0).warned = true ∧ (check_args args0).ok = true ∧
    main te0 (TrainSize.square 64) "track-a" args0 ≠ MainOutcome.argCheckAbort :=
  C8_retention_warning_nonfatal te0 (TrainSize.square 64) "track-a" args0 rfl (Or.inl rfl)

/-- Claim C9: every `WorldModelEnv` the orchestrator constructs has
`return_denoising_trajectory = True`, independently of
`--store-denoising-trajectory`; that flag reaches only the `PlayEnv`, and
flipping it leaves the constructed `WorldModelEnv` unchanged. -/
theorem C9_wm_env_always_returns_denoising (te : TorchEnv) (mn : String) (args : Args)
    (b : Bool) :
    (∀ p, (prepare_play_mode te mn args).2 = some p →
      p.wm_env.return_denoising_trajectory = true ∧
      p.store_denoising_trajectory = args.store_denoising_trajectory) ∧
    (prepare_play_mode te mn { args with store_denoising_trajectory := b }).2.map
        PlayEnvModel.wm_env
      = (prepare_play_mode te mn args).2.map PlayEnvModel.wm_env := by
  constructor
  · intro p hp
    by_cases hid : te.env_cfg.train_id = mn
    · rw [prepare_play_mode_success te mn args hid] at hp
      injection hp with h
      subst h
      exact ⟨rfl, rfl⟩
    · simp [prepare_play_mode, hid] at hp
  · by_cases hid : te.env_cfg.train_id = mn
    · rw [prepare_play_mode_success te mn { args with store_denoising_trajectory := b } hid,
        prepare_play_mode_success te mn args hid]
      rfl
    · simp [prepare_play_mode, hid]

/-- Witness for C9 at the concrete environment constructed for
`track-a`. -/
theorem C9_witness :
    mainWitnessGame.env.wm_env.return_denoising_trajectory = true ∧
    mainWitnessGame.env.store_denoising_trajectory = args0.store_denoising_trajectory :=
  (C9_wm_env_always_returns_denoising te0 "track-a" args0 false).1 mainWitnessGame.env
    (by decide)

/-- Claim C10: `check_args` returns `True` for every argument namespace,
so `main`'s early-return guard is never taken. -/
theorem C10_check_args_always_true (args : Args) :
    (check_args args).ok = true ∧
    ∀ (te : TorchEnv) (ts : TrainSize) (mn : String),
      main te ts mn args ≠ MainOutcome.argCheckAbort :=
  ⟨rfl, fun te ts mn => main_never_early_return te ts mn args⟩

end Play
